import Mathlib

/-!
Shallow embedding of `src/picaso_lcd/display.py` (a Python 2 driver for a
4D Systems serial LCD), together with theorems settling the specification
claims about it.

The serial channel is modelled as two byte lists inside a state record:
`channel` holds the bytes the device will yield to `serial.read()`, and
`written` accumulates the bytes passed to `serial.write()`.  Python
exceptions are modelled by an error result that carries the state at the
moment the exception is raised (Python exceptions do not roll back I/O).

The repository modules `utils`, `constants` and `exceptions` are not under
`src/`; the definitions taken from them are modelled from the spec and say
so in their doc comments.  Everything else is translated line by line from
`display.py`.
-/

namespace PicasoLcd

/-- Modelled from the spec: `constants.ACK` is not under `src/`.
Spec section 6: the ACK sentinel is the fixed byte value 0x06. -/
def ACK : Nat := 0x06

/-- Modelled from the spec: `utils.int_to_dword` is not under `src/`.
Spec sections 4.1 and 9: splits a value into its big-endian byte pair
(high byte, low byte), silently reducing out-of-range integers with
modular arithmetic (masking to 16 bits). -/
def int_to_dword (v : Nat) : Nat × Nat := ((v / 256) % 256, v % 256)

/-- Modelled from the spec: `utils.dword_to_int` is not under `src/`.
Spec section 4.1: reassembles a 16-bit unsigned integer from an ordered
byte pair, high byte first. -/
def dword_to_int (high low : Nat) : Nat := high * 256 + low

/-- The Python exceptions `display.py` can raise, by kind.  `picaso` is
`exceptions.PicasoException` (the spec's ProtocolError); its message is
built from the offending byte value, so the model carries that value.
`valueError` covers `ValueError` (too-long string, `chr` out of range),
`typeError` covers `TypeError`, `indexError` covers `IndexError`, and
`assertionError` covers `AssertionError` (the spec's ConsistencyError). -/
inductive PErr where
  | picaso (b : Nat)
  | typeError
  | valueError
  | indexError
  | assertionError
deriving DecidableEq, Repr

/-- The driver state: the bytes still to be read from the serial channel,
the bytes written to it so far, and the cached `self._contrast` field
(initialised to 15 in `Display.__init__`). -/
structure St where
  channel : List Nat
  written : List Nat
  contrast : Nat
deriving DecidableEq, Repr

/-- Result of running a method: either a value or a raised exception,
in both cases together with the state reached. -/
inductive Res (α : Type) where
  | ok (a : α) (st : St)
  | err (e : PErr) (st : St)
deriving DecidableEq, Repr

/-- The state component of a result. -/
def Res.state {α : Type} : Res α → St
  | .ok _ st => st
  | .err _ st => st

/-- The returned value of a result, if no exception was raised. -/
def Res.val? {α : Type} : Res α → Option α
  | .ok a _ => some a
  | .err _ _ => none

/-- A Python 2 value as far as `display.py` inspects one: either an `int`
or a byte-string (`str`).  The distinction matters because the code
applies `ord` both to what `serial.read()` returns (a `str`) and, by
mistake, to `int` elements of `_get_ack`'s result list. -/
inductive PyVal where
  | pyInt (n : Nat)
  | pyStr (s : List Nat)
deriving DecidableEq, Repr

/-- Python 2 `ord`: defined on a one-character string, a `TypeError` on a
string of any other length and on an `int`. -/
def pyOrd : PyVal → Except PErr Nat
  | .pyStr [c] => .ok c
  | .pyStr _ => .error .typeError
  | .pyInt _ => .error .typeError

/-- `self._ser.read()`: pops one byte from the channel and yields it as a
one-byte string; an exhausted channel yields the empty string (what a
pyserial read returns on timeout). -/
def serRead (st : St) : PyVal × St :=
  match st.channel with
  | [] => (.pyStr [], st)
  | b :: rest => (.pyStr [b], { st with channel := rest })

/-- `self._ser.write(chr(c))` for a byte value `c` already known to be in
range: appends the byte to the written stream. -/
def serWrite (b : Nat) (st : St) : St :=
  { st with written := st.written ++ [b] }

/-- The two bytes `write_cmd` emits for one command word: `chr(high_byte)`
then `chr(low_byte)` from `utils.int_to_dword`. -/
def word_bytes (w : Nat) : List Nat :=
  [(int_to_dword w).1, (int_to_dword w).2]

/-- `Display.write_cmd`: writes each word of the command as its big-endian
byte pair, in order.  `chr` cannot fail here because `int_to_dword`
yields bytes below 256, so the method is total. -/
def write_cmd (cmd : List Nat) (st : St) : St :=
  match cmd with
  | [] => st
  | c :: rest =>
      let hl := int_to_dword c
      write_cmd rest (serWrite hl.2 (serWrite hl.1 st))

/-- `Display.write_raw_cmd`: writes each listed byte verbatim via
`chr(c)`; Python 2 `chr` raises `ValueError` for a value outside 0..255,
after the earlier bytes have already been written. -/
def write_raw_cmd (cmd : List Nat) (st : St) : Res Unit :=
  match cmd with
  | [] => .ok () st
  | c :: rest =>
      if c < 256 then write_raw_cmd rest (serWrite c st)
      else .err .valueError st

/-- The response loop of `Display._get_ack`: reads `n` bytes from the
channel, converting each with `ord`, and collects them in order. -/
def readIntBytes (n : Nat) (st : St) : Res (List Nat) :=
  match n with
  | 0 => .ok [] st
  | Nat.succ m =>
      let r := serRead st
      match pyOrd r.1 with
      | .error e => .err e r.2
      | .ok b =>
          match readIntBytes m r.2 with
          | .ok rest st2 => .ok (b :: rest) st2
          | .err e st2 => .err e st2

/-- `Display._get_ack`: reads one byte; if it is not the ACK sentinel,
raises `PicasoException` with a message carrying the byte's value.
Otherwise returns `None` when `return_bytes` is zero
(`values = [] if return_bytes else None`), else the list of the next
`return_bytes` channel bytes as ints. -/
def get_ack (return_bytes : Nat) (st : St) : Res (Option (List Nat)) :=
  let r := serRead st
  match pyOrd r.1 with
  | .error e => .err e r.2
  | .ok a =>
      if a = ACK then
        if return_bytes = 0 then .ok none r.2
        else
          match readIntBytes return_bytes r.2 with
          | .ok vals st2 => .ok (some vals) st2
          | .err e st2 => .err e st2
      else .err (.picaso a) r.2

/-- `map(ord, val)` as `set_contrast` and `get_display_size` perform it on
the value returned by `_get_ack`: mapping over `None` is a `TypeError`,
and each element of the list is an `int`, on which `ord` raises
`TypeError`. -/
def pyMapOrd (val : Option (List Nat)) : Except PErr (List Nat) :=
  match val with
  | none => .error .typeError
  | some l => l.mapM (fun v => pyOrd (.pyInt v))

/-- `Display.set_contrast`: sends `[0xff9c, contrast]`, reads a 2-byte
response, then runs `dword = map(ord, val)` and assigns
`self._contrast = utils.dword_to_int(*dword)` (a call that is a
`TypeError` unless `dword` has exactly two elements). -/
def set_contrast (contrast : Nat) (st : St) : Res Unit :=
  let st1 := write_cmd [0xff9c, contrast] st
  match get_ack 2 st1 with
  | .err e st2 => .err e st2
  | .ok val st2 =>
      match pyMapOrd val with
      | .error e => .err e st2
      | .ok dword =>
          match dword with
          | [h, l] => .ok () { st2 with contrast := dword_to_int h l }
          | _ => .err .typeError st2

/-- `Display.off`: `self.set_contrast(0)`. -/
def off (st : St) : Res Unit :=
  set_contrast 0 st

/-- `Display.on` (`on` is reserved in Lean): `self.set_contrast(self._contrast)`. -/
def on' (st : St) : Res Unit :=
  set_contrast st.contrast st

/-- `Display.set_orientation`: sends `[0xff9e, value]` and returns
`self._get_ack(2)[0]`; indexing `None` is a `TypeError` and indexing an
empty list an `IndexError`. -/
def set_orientation (value : Nat) (st : St) : Res Nat :=
  let st1 := write_cmd [0xff9e, value] st
  match get_ack 2 st1 with
  | .err e st2 => .err e st2
  | .ok val st2 =>
      match val with
      | some (b0 :: _) => .ok b0 st2
      | some [] => .err .indexError st2
      | none => .err .typeError st2

/-- `Display.get_display_size`: sends `[0xffa6, 0]`, reads 2 bytes, runs
`map(ord, [x[0], x[1]])`, then does the same with `[0xffa6, 1]` for `y`,
and returns the pair of `dword_to_int` decodings. -/
def get_display_size (st : St) : Res (Nat × Nat) :=
  let st1 := write_cmd [0xffa6, 0] st
  match get_ack 2 st1 with
  | .err e st2 => .err e st2
  | .ok x st2 =>
      match x with
      | none => .err .typeError st2
      | some xs =>
          match xs with
          | x0 :: x1 :: _ =>
              match pyMapOrd (some [x0, x1]) with
              | .error e => .err e st2
              | .ok xdw =>
                  let st3 := write_cmd [0xffa6, 1] st2
                  match get_ack 2 st3 with
                  | .err e st4 => .err e st4
                  | .ok y st4 =>
                      match y with
                      | none => .err .typeError st4
                      | some ys =>
                          match ys with
                          | y0 :: y1 :: _ =>
                              match pyMapOrd (some [y0, y1]) with
                              | .error e => .err e st4
                              | .ok ydw =>
                                  match xdw, ydw with
                                  | [xh, xl], [yh, yl] =>
                                      .ok (dword_to_int xh xl, dword_to_int yh yl) st4
                                  | _, _ => .err .typeError st4
                          | _ => .err .indexError st4
          | _ => .err .indexError st2

/-- A trailing `self._get_ack(n)` statement whose return value the caller
discards (the Python method then returns `None`): propagates a raised
exception, otherwise yields unit at the state the handshake reached. -/
def run_ack (n : Nat) (st : St) : Res Unit :=
  match get_ack n st with
  | .err e st2 => .err e st2
  | .ok _ st2 => .ok () st2

/-- `Display.gfx_polyline`: opcode 0x0015, or 0x0013 when closed, or
0x0014 when filled (filled wins); then the word list
`[cmd, len(lines)]`, all X-coordinates in order, all Y-coordinates in
order, and the color; sent with `write_cmd`, followed by `_get_ack()`. -/
def gfx_polyline (lines : List (Nat × Nat)) (color : Nat)
    (closed filled : Bool) (st : St) : Res Unit :=
  let cmd := if filled then 0x0014 else if closed then 0x0013 else 0x0015
  let cmd_list := cmd :: lines.length ::
    (lines.map Prod.fst ++ lines.map Prod.snd ++ [color])
  let st1 := write_cmd cmd_list st
  run_ack 0 st1

/-- The arguments a call of `gfx_polyline(...)` supplies, one optional
slot per parameter of `def gfx_polyline(self, lines, color, closed=False,
filled=False)`. -/
structure PolylineCall where
  lines : Option (List (Nat × Nat)) := none
  color : Option Nat := none
  closed : Option Bool := none
  filled : Option Bool := none

/-- Python call semantics for `gfx_polyline`: binds the supplied
arguments to the parameters, raising `TypeError` before the body runs
when a parameter without a default (`lines`, `color`) is left unbound;
`closed` and `filled` default to `False`. -/
def callPolyline (call : PolylineCall) (st : St) : Res Unit :=
  match call.color with
  | none => .err .typeError st
  | some c =>
      match call.lines with
      | none => .err .typeError st
      | some ls => gfx_polyline ls c (call.closed.getD false) (call.filled.getD false) st

/-- `Display.gfx_triangle`: `self.gfx_polyline(vertices, closed=True,
filled=filled)` — `vertices` binds positionally to `lines`; no argument
is supplied for `color`. -/
def gfx_triangle (vertices : List (Nat × Nat)) (filled : Bool) (st : St) : Res Unit :=
  callPolyline { lines := some vertices, closed := some true, filled := some filled } st

/-- `DisplayText.put_string`: rejects strings longer than 511 characters
with `ValueError` before anything is sent; otherwise sends the raw bytes
`[0x00, 0x18]`, one byte per character, and a terminating `0x00`, then
checks `utils.dword_to_int(*self.d._get_ack(2))` against the string
length, raising `AssertionError` on mismatch.  A Python 2 `str` is a
byte string, so the input is a list of character codes. -/
def put_string (string : List Nat) (st : St) : Res Unit :=
  if string.length > 511 then .err .valueError st
  else
    let cmd := [0x00, 0x18] ++ string ++ [0x00]
    match write_raw_cmd cmd st with
    | .err e st1 => .err e st1
    | .ok _ st1 =>
        match get_ack 2 st1 with
        | .err e st2 => .err e st2
        | .ok val st2 =>
            match val with
            | some [h, l] =>
                if dword_to_int h l = string.length then .ok () st2
                else .err .assertionError st2
            | _ => .err .typeError st2

/-! ## Helper lemmas about the transport layer -/

theorem serRead_written (st : St) : (serRead st).2.written = st.written := by
  obtain ⟨ch, w, c⟩ := st
  cases ch <;> rfl

theorem write_cmd_eq (cmd : List Nat) (st : St) :
    write_cmd cmd st = { st with written := st.written ++ cmd.flatMap word_bytes } := by
  induction cmd generalizing st with
  | nil => simp [write_cmd]
  | cons c rest ih =>
      simp [write_cmd, serWrite, ih, word_bytes, List.append_assoc]

theorem write_raw_cmd_eq (cmd : List Nat) (st : St) (h : ∀ c ∈ cmd, c < 256) :
    write_raw_cmd cmd st = .ok () { st with written := st.written ++ cmd } := by
  induction cmd generalizing st with
  | nil => simp [write_raw_cmd]
  | cons c rest ih =>
      have hc : c < 256 := h c (List.mem_cons_self c rest)
      have hrest : ∀ d ∈ rest, d < 256 := fun d hd => h d (List.mem_cons_of_mem c hd)
      simp [write_raw_cmd, hc, serWrite, ih _ hrest, List.append_assoc]

theorem readIntBytes_append (pre rest w : List Nat) (c : Nat) :
    readIntBytes pre.length ⟨pre ++ rest, w, c⟩ = .ok pre ⟨rest, w, c⟩ := by
  induction pre generalizing rest with
  | nil => rfl
  | cons b pre ih => simp [readIntBytes, serRead, pyOrd, ih]

theorem readIntBytes_written (n : Nat) (st : St) :
    (readIntBytes n st).state.written = st.written := by
  induction n generalizing st with
  | zero => rfl
  | succ m ih =>
      obtain ⟨ch, w, c⟩ := st
      cases ch with
      | nil => rfl
      | cons b rest =>
          have h := ih ⟨rest, w, c⟩
          rcases hr : readIntBytes m ⟨rest, w, c⟩ with ⟨a, st2⟩ | ⟨e, st2⟩ <;> rw [hr] at h <;>
            simpa [readIntBytes, serRead, pyOrd, hr, Res.state] using h

theorem get_ack_written (n : Nat) (st : St) :
    (get_ack n st).state.written = st.written := by
  obtain ⟨ch, w, c⟩ := st
  cases ch with
  | nil => rfl
  | cons b rest =>
      by_cases hb : b = ACK
      · subst hb
        by_cases hn : n = 0
        · subst hn; rfl
        · have h := readIntBytes_written n ⟨rest, w, c⟩
          rcases hr : readIntBytes n ⟨rest, w, c⟩ with ⟨a, st2⟩ | ⟨e, st2⟩ <;> rw [hr] at h <;>
            simpa [get_ack, serRead, pyOrd, hn, hr, Res.state] using h
      · simp [get_ack, serRead, pyOrd, hb, Res.state]

theorem run_ack_written (n : Nat) (st : St) :
    (run_ack n st).state.written = st.written := by
  have h := get_ack_written n st
  rcases hg : get_ack n st with ⟨a, st2⟩ | ⟨e, st2⟩ <;> rw [hg] at h <;>
    simpa [run_ack, hg, Res.state] using h

theorem get_ack_two (b0 b1 : Nat) (rest w : List Nat) (c : Nat) :
    get_ack 2 ⟨ACK :: b0 :: b1 :: rest, w, c⟩ = .ok (some [b0, b1]) ⟨rest, w, c⟩ := rfl

/-! ## Claim theorems -/

/-- C3: for every expected-response count, a first channel byte that is not
the ACK sentinel 0x06 makes `_get_ack` fail with a `PicasoException`
carrying that byte's value, with exactly that one byte consumed from the
channel and no further bytes read. -/
theorem get_ack_non_ack_fails (n : Nat) (st : St) (b : Nat) (rest : List Nat)
    (hch : st.channel = b :: rest) (hb : b ≠ ACK) :
    get_ack n st = .err (.picaso b) { st with channel := rest } := by
  obtain ⟨ch, w, c⟩ := st
  simp only at hch
  subst hch
  simp [get_ack, serRead, pyOrd, hb]

/-- C3 witness. -/
theorem get_ack_non_ack_fails_witness :
    get_ack 2 ⟨[0x15, 99, 98], [], 15⟩ = .err (.picaso 0x15) ⟨[99, 98], [], 15⟩ :=
  get_ack_non_ack_fails 2 ⟨[0x15, 99, 98], [], 15⟩ 0x15 [99, 98] rfl (by decide)

/-- C9: `_get_ack(0)` on a channel whose next byte is the ACK sentinel
succeeds, consumes only that byte, and its result is the empty payload
(Python `None`, the spec's "no data"). -/
theorem get_ack_zero_empty (st : St) (rest : List Nat) (hch : st.channel = ACK :: rest) :
    get_ack 0 st = .ok none { st with channel := rest } := by
  obtain ⟨ch, w, c⟩ := st
  simp only at hch
  subst hch
  rfl

/-- C9 witness. -/
theorem get_ack_zero_empty_witness :
    get_ack 0 ⟨[0x06], [], 15⟩ = .ok none ⟨[], [], 15⟩ :=
  get_ack_zero_empty ⟨[0x06], [], 15⟩ [] rfl

/-- C4: `gfx_polyline` sends, as big-endian words and in this exact order,
the selected opcode, the vertex count, all X-coordinates in input order,
all Y-coordinates in input order, and finally the color word; X and Y
are never interleaved.  Holds for every vertex list, color, flag choice
and starting state. -/
theorem gfx_polyline_byte_stream (lines : List (Nat × Nat)) (color : Nat)
    (closed filled : Bool) (st : St) :
    (gfx_polyline lines color closed filled st).state.written =
      st.written ++
        (((if filled then 0x0014 else if closed then 0x0013 else 0x0015) ::
          lines.length ::
          (lines.map Prod.fst ++ lines.map Prod.snd ++ [color])).flatMap word_bytes) := by
  simp only [gfx_polyline, run_ack_written, write_cmd_eq]

/-- C7: a string longer than 511 characters is rejected by `put_string`
with a `ValueError` before any transmission: the state, in particular the
written byte stream and the channel, is unchanged. -/
theorem put_string_too_long_rejected (s : List Nat) (st : St) (h : s.length > 511) :
    put_string s st = .err .valueError st := by
  rw [put_string, if_pos h]

/-- C7 witness. -/
theorem put_string_too_long_rejected_witness :
    put_string (List.replicate 512 65) ⟨[], [], 15⟩ = .err .valueError ⟨[], [], 15⟩ :=
  put_string_too_long_rejected (List.replicate 512 65) ⟨[], [], 15⟩
    (by simp only [List.length_replicate]; omega)

/-- C8: decoding the big-endian byte pair produced by encoding any value
in [0, 65535] yields the value back. -/
theorem dword_roundtrip (v : Nat) (h : v ≤ 65535) :
    dword_to_int (int_to_dword v).1 (int_to_dword v).2 = v := by
  simp only [dword_to_int, int_to_dword]
  omega

/-- C8 witness. -/
theorem dword_roundtrip_witness :
    dword_to_int (int_to_dword 40000).1 (int_to_dword 40000).2 = 40000 :=
  dword_roundtrip 40000 (by decide)

/-- C10: `gfx_triangle` raises `TypeError` for every vertex list, filled
flag and state, because its call of `gfx_polyline` supplies no `color`
argument; the state is unchanged, so no bytes are written. -/
theorem gfx_triangle_raises_typeerror (vertices : List (Nat × Nat)) (filled : Bool) (st : St) :
    gfx_triangle vertices filled st = .err .typeError st := rfl

/-- C1 (code bug): `set_contrast(200)` on a device that acknowledges and
echoes the previous contrast as bytes [0x00, 0x0F] raises `TypeError`
(the code applies `ord` to the ints `_get_ack` returned); the cached
contrast stays 15 and is never set to 200. -/
theorem set_contrast_raises_typeerror :
    set_contrast 200 ⟨[0x06, 0x00, 0x0F], [], 15⟩ =
      .err .typeError ⟨[], [0xff, 0x9c, 0x00, 0xc8], 15⟩ := by decide

/-- C6 (code bug): `get_display_size` on a device that would report
320 x 240 raises `TypeError` after the first round-trip (again `ord`
applied to ints): the second command is never sent and no pair is
returned. -/
theorem get_display_size_raises_typeerror :
    get_display_size ⟨[0x06, 0x01, 0x40, 0x06, 0x00, 0xF0], [], 15⟩ =
      .err .typeError ⟨[0x06, 0x00, 0xF0], [0xff, 0xa6, 0x00, 0x00], 15⟩ := by decide

/-- C5 counterexample: with the 2-byte response [0x00, 0x02] after the
ACK, `set_orientation` returns 0 — the first response byte — and not the
big-endian decoded word 2 the claim requires. -/
theorem set_orientation_not_decoded_word :
    (set_orientation 1 ⟨[0x06, 0x00, 0x02], [], 15⟩).val? = some 0 ∧
      some 0 ≠ some (dword_to_int 0x00 0x02) := by decide

/-- C5 amended: `set_orientation` returns the FIRST byte of the 2-byte
response following the ACK (the high byte of the big-endian word), not
the decoded word. -/
theorem set_orientation_returns_first_byte (value : Nat) (st : St) (b0 b1 : Nat)
    (rest : List Nat) (hch : st.channel = ACK :: b0 :: b1 :: rest) :
    set_orientation value st =
      .ok b0 ⟨rest, st.written ++ (word_bytes 0xff9e ++ word_bytes value), st.contrast⟩ := by
  obtain ⟨ch, w, c⟩ := st
  simp only at hch
  subst hch
  have hg : get_ack 2 (write_cmd [0xff9e, value] ⟨ACK :: b0 :: b1 :: rest, w, c⟩) =
      .ok (some [b0, b1]) ⟨rest, w ++ (word_bytes 0xff9e ++ word_bytes value), c⟩ := by
    rw [write_cmd_eq]
    simpa using get_ack_two b0 b1 rest (w ++ (word_bytes 0xff9e ++ word_bytes value)) c
  simp [set_orientation, hg]

/-- C5 amended witness. -/
theorem set_orientation_returns_first_byte_witness :
    set_orientation 1 ⟨[0x06, 0x00, 0x02], [], 15⟩ =
      .ok 0 ⟨[], [0xff, 0x9e, 0x00, 0x01], 15⟩ := by
  have h := set_orientation_returns_first_byte 1 ⟨[0x06, 0x00, 0x02], [], 15⟩ 0 2 [] rfl
  simpa [word_bytes, int_to_dword] using h

/-- C2: for every string of at most 511 character codes, `put_string`
writes exactly the raw bytes 0x00, 0x18, the characters, and a
terminating 0x00; after the ACK it reads a 2-byte response and succeeds
precisely when the big-endian decoding of that response equals the
string length, raising `AssertionError` (the spec's ConsistencyError) on
any mismatch. -/
theorem put_string_roundtrip (s : List Nat) (h0 h1 : Nat) (rest : List Nat) (st : St)
    (hlen : s.length ≤ 511) (hbyte : ∀ c ∈ s, c < 256)
    (hch : st.channel = ACK :: h0 :: h1 :: rest) :
    put_string s st =
      if dword_to_int h0 h1 = s.length then
        .ok () ⟨rest, st.written ++ ([0x00, 0x18] ++ s ++ [0x00]), st.contrast⟩
      else
        .err .assertionError ⟨rest, st.written ++ ([0x00, 0x18] ++ s ++ [0x00]), st.contrast⟩ := by
  obtain ⟨ch, w, c⟩ := st
  simp only at hch
  subst hch
  have hnot : ¬ s.length > 511 := by omega
  have hall : ∀ d ∈ [0x00, 0x18] ++ s ++ [0x00], d < 256 := by
    intro d hd
    rcases List.mem_append.mp hd with h1 | h1
    · rcases List.mem_append.mp h1 with h2 | h2
      · rcases List.mem_cons.mp h2 with rfl | h3
        · omega
        · rcases List.mem_cons.mp h3 with rfl | h4
          · omega
          · exact absurd h4 (List.not_mem_nil d)
      · exact hbyte d h2
    · rcases List.mem_cons.mp h1 with rfl | h3
      · omega
      · exact absurd h3 (List.not_mem_nil d)
  have hw : write_raw_cmd (0x00 :: 0x18 :: (s ++ [0x00])) ⟨ACK :: h0 :: h1 :: rest, w, c⟩ =
      .ok () ⟨ACK :: h0 :: h1 :: rest, w ++ (0x00 :: 0x18 :: (s ++ [0x00])), c⟩ :=
    write_raw_cmd_eq _ _ hall
  have hg := get_ack_two h0 h1 rest (w ++ (0x00 :: 0x18 :: (s ++ [0x00]))) c
  rw [put_string, if_neg hnot]
  simp [hw, hg]

/-- C2 witness: `put_string("OK")` with response [0x00, 0x02]. -/
theorem put_string_roundtrip_witness :
    put_string [0x4F, 0x4B] ⟨[0x06, 0x00, 0x02], [], 15⟩ =
      .ok () ⟨[], [0x00, 0x18, 0x4F, 0x4B, 0x00], 15⟩ := by
  have h := put_string_roundtrip [0x4F, 0x4B] 0x00 0x02 [] ⟨[0x06, 0x00, 0x02], [], 15⟩
    (by decide) (by decide) rfl
  simpa [dword_to_int] using h

end PicasoLcd

